import Mathlib

/-!
Shallow embedding of the `gorm0log` repository: a Gorm logger adapter that
routes the ORM's query-lifecycle events through zerolog.

The embedding models:

* zerolog's leveled-event builder (`zerolog.Logger`, `Event`): an event is
  created at a level only when that level passes the logger's threshold;
  `Func` runs a closure only on enabled events; `Msg` materializes an
  emission only for enabled events.  Levels use zerolog's integer constants.
* Gorm's `logger.LogLevel` integer constants.
* The repository's `Config` (config.go), the three formatter closures
  (`logErr`, `logSlow`, `logDump`), the level selectors (`UseError`, ...,
  `Ignore`), the error helpers (helper.go) and the `Logger` adapter with its
  `LogMode` / `Info` / `Warn` / `Error` / `Trace` / `ParamsFilter` methods
  (logger.go).

Modelling conventions:

* Go errors form the inductive `GoError`; `errors.Is` unwrap-chain matching
  is `errorsIs`; the two gorm sentinels are dedicated constructors.
* The lazy `func() (string, int64)` supplier is pure, so it is represented
  by the pair it would return; `Trace` additionally reports how many times
  the supplier would have been invoked (`supplierCalls`), which is decided
  exactly at the points where zerolog's `Func` would run a formatter.
* `time.Duration` values are `Int` nanosecond counts; `Trace` receives the
  elapsed duration directly instead of a begin timestamp (physical clock
  reads are outside the embedding).
* The `Customize` callback is modelled by the fields it appends for a given
  context: its documented purpose (config.go) is "to log extra info", and
  the only callback shipped in the repository (`LogSource`) only appends
  fields.  It therefore never changes an event's level.
* `context.Context` is an abstract tag (`Ctx`), SQL parameter values are
  abstract tags (`Param`).
-/

set_option autoImplicit false

namespace zerolog

/-- zerolog severity levels, as their integer constants. -/
abbrev Level := Int

def TraceLevel : Level := -1

def DebugLevel : Level := 0

def InfoLevel : Level := 1

def WarnLevel : Level := 2

def ErrorLevel : Level := 3

def FatalLevel : Level := 4

/-- Go `zerolog.Disabled` disables the logger entirely. -/
def Disabled : Level := 7

/-- A zerolog logger handle, reduced to the state the adapter observes: its
enabled-severity threshold. -/
structure Logger where
  lvl : Level
deriving DecidableEq, Repr

/-- Go `zerolog.Logger.Level` returns a child logger with the given minimum level. -/
def Logger.Level (_l : Logger) (v : Int) : Logger :=
  { lvl := v }

end zerolog

namespace logger

/-- Gorm's `logger.LogLevel` constants: `Silent = 1`, `Error = 2`, `Warn = 3`,
`Info = 4`.  The type is plain `int`, so any integer value is possible. -/
abbrev LogLevel := Int

def Silent : LogLevel := 1

def Error : LogLevel := 2

def Warn : LogLevel := 3

def Info : LogLevel := 4

end logger

/-- Go error values as the adapter can distinguish them: the two gorm
sentinels, any other error (tagged), and wrapping (`fmt.Errorf` with `%w`). -/
inductive GoError where
  | recordNotFound : GoError
  | duplicatedKey : GoError
  | other : Nat → GoError
  | wrap : GoError → GoError
deriving DecidableEq, Repr

/-- Go `errors.Is`: walks the unwrap chain of the first argument looking for the
target. -/
def errorsIs : GoError → GoError → Bool
  | .wrap i, t => decide (GoError.wrap i = t) || errorsIs i t
  | e, t => decide (e = t)

/-- The innermost error of an unwrap chain (a spec-side notion used to state
theorems about `errorsIs`). -/
def GoError.leaf : GoError → GoError
  | .wrap i => GoError.leaf i
  | e => e

/-- A structured field attached to a zerolog event (`Str`, `Int64`, `Dur`,
`Err`). -/
inductive LogField where
  | str : String → String → LogField
  | i64 : String → Int → LogField
  | dur : String → Int → LogField
  | err : GoError → LogField
deriving DecidableEq, Repr

/-- The payload of a live (non-nil) zerolog event: its level and the fields
attached so far, in order. -/
structure EvData where
  lvl : Int
  fields : List LogField
deriving DecidableEq, Repr

/-- Append one field to an event payload. -/
def EvData.add (d : EvData) (f : LogField) : EvData :=
  { d with fields := d.fields ++ [f] }

/-- A `*zerolog.Event`: either Go's `nil` (the level did not pass the logger
threshold at creation time) or a live event payload. -/
inductive Event where
  | nil : Event
  | ev : EvData → Event
deriving DecidableEq, Repr

/-- Go `Event.Enabled`: a non-nil event whose level is not `Disabled`. -/
def Event.Enabled : Event → Bool
  | .nil => false
  | .ev d => decide (d.lvl ≠ zerolog.Disabled)

/-- Go `Event.Func` runs the closure only if the event is enabled, and returns
the event. -/
def Event.Func (e : Event) (g : EvData → EvData) : Event :=
  match e with
  | .nil => .nil
  | .ev d => if d.lvl ≠ zerolog.Disabled then .ev (g d) else .ev d

/-- Go `Event.Err` attaches an error field (nil-check only, like all zerolog
field methods). -/
def Event.Err (e : Event) (ge : GoError) : Event :=
  match e with
  | .nil => .nil
  | .ev d => .ev (d.add (LogField.err ge))

/-- Go `Event.Discard` marks the event as disabled. -/
def Event.Discard (e : Event) : Event :=
  match e with
  | .nil => .nil
  | .ev d => .ev { d with lvl := zerolog.Disabled }

/-- One log line actually written by the sink: message, level, fields. -/
structure Emission where
  msg : String
  lvl : Int
  fields : List LogField
deriving DecidableEq, Repr

/-- Go `Event.Msg` materializes the emission when the event is enabled and is a
no-op otherwise. -/
def Event.Msg (e : Event) (m : String) : List Emission :=
  match e with
  | .nil => []
  | .ev d => if d.lvl ≠ zerolog.Disabled then [⟨m, d.lvl, d.fields⟩] else []

/-- zerolog event creation: `l.Trace()`, `l.Error()`, ... produce a live event
exactly when the requested level passes the logger's threshold. -/
def zerolog.Logger.newEvent (l : zerolog.Logger) (lvl : Int) : Event :=
  if lvl < l.lvl then .nil else .ev ⟨lvl, []⟩

/-- A severity selector, as stored in `Config` (`func(zerolog.Logger) *zerolog.Event`). -/
abbrev LevelSel := zerolog.Logger → Event

/-- Go `Ignore` denotes the message is ignored (`l.Trace().Discard()`). -/
def UseTrace (l : zerolog.Logger) : Event := l.newEvent zerolog.TraceLevel

def UseDebug (l : zerolog.Logger) : Event := l.newEvent zerolog.DebugLevel

def UseInfo (l : zerolog.Logger) : Event := l.newEvent zerolog.InfoLevel

def UseWarn (l : zerolog.Logger) : Event := l.newEvent zerolog.WarnLevel

def UseError (l : zerolog.Logger) : Event := l.newEvent zerolog.ErrorLevel

def UseFatal (l : zerolog.Logger) : Event := l.newEvent zerolog.FatalLevel

def Ignore (l : zerolog.Logger) : Event := (UseTrace l).Discard

/-- DefaultLogLevelMap (logger.go): translates Gorm's log mode; `logger.Info`
goes to `zerolog.DebugLevel`. -/
def DefaultLogLevelMap (i : logger.LogLevel) : zerolog.Level :=
  if i ≤ logger.Silent then zerolog.Disabled
  else if i = logger.Error then zerolog.ErrorLevel
  else if i = logger.Warn then zerolog.WarnLevel
  else zerolog.DebugLevel

/-- WithTimeTracking (logger.go): like `DefaultLogLevelMap` but `logger.Info`
goes to `zerolog.TraceLevel`. -/
def WithTimeTracking (i : logger.LogLevel) : zerolog.Level :=
  if i ≤ logger.Silent then zerolog.Disabled
  else if i = logger.Error then zerolog.ErrorLevel
  else if i = logger.Warn then zerolog.WarnLevel
  else zerolog.TraceLevel

/-- Go `context.Context`, abstract to the adapter. -/
abbrev Ctx := Nat

/-- The value the lazy `func() (string, int64)` supplier returns when invoked:
the SQL text and the affected-row count (`-1` = unknown). -/
abbrev Supplier := String × Int

/-- A SQL parameter value, abstract to the adapter. -/
abbrev Param := Nat

/-- Config (config.go): the optional overrides, with their zero values. -/
structure Config where
  SlowThreshold : Int := 0
  SlowLevel : Option LevelSel := none
  Duration : String := ""
  ErrorLevel : Option (GoError → zerolog.Logger → Event) := none
  ParameterizedQueries : Bool := false
  DumpLevel : Option LevelSel := none
  DumpWithDuration : Bool := false
  SQL : String := ""
  AffectedRows : String := ""
  Customize : Option (Ctx → List LogField) := none

/-- Go `key` (config.go): the override if non-empty, else the default. -/
def key (val defaults : String) : String :=
  if val ≠ "" then val else defaults

def Config.sqlKey (c : Config) : String := key c.SQL "sql"

def Config.durKey (c : Config) : String := key c.Duration "duration"

def Config.rowKey (c : Config) : String := key c.AffectedRows "affected_rows"

/-- Go `Config.errLevel`: configured selector, or log at Error level with the
error attached. -/
def Config.errLevel (c : Config) (e : GoError) (l : zerolog.Logger) : Event :=
  match c.ErrorLevel with
  | none => (UseError l).Err e
  | some g => g e l

/-- Go `level` (config.go): the override if present, else the default. -/
def level (val : Option LevelSel) (defaults : LevelSel) : LevelSel :=
  match val with
  | none => defaults
  | some v => v

def Config.slowLevel (c : Config) (l : zerolog.Logger) : Event :=
  level c.SlowLevel UseWarn l

def Config.dumpLevel (c : Config) (l : zerolog.Logger) : Event :=
  level c.DumpLevel UseDebug l

/-- Go `Config.custom`: the closure passed to `Event.Func`; calls the `Customize`
callback if present (modelled by the fields the callback appends). -/
def Config.custom (c : Config) (ctx : Ctx) : EvData → EvData :=
  fun ev =>
    match c.Customize with
    | none => ev
    | some g => { ev with fields := ev.fields ++ g ctx }

/-- Go `Config.logErr`: error-message formatter; attaches the error and the SQL
text, and the affected-row count unless it is the `-1` sentinel. -/
def Config.logErr (c : Config) (e : GoError) (f : Supplier) : EvData → EvData :=
  fun ev =>
    let sql := f.1
    let rows := f.2
    let ev1 := (ev.add (LogField.err e)).add (LogField.str c.sqlKey sql)
    if rows ≠ -1 then ev1.add (LogField.i64 c.rowKey rows) else ev1

/-- Go `Config.logSlow`: slow-log formatter; attaches the duration and the SQL
text, and the affected-row count unless it is the `-1` sentinel. -/
def Config.logSlow (c : Config) (dur : Int) (f : Supplier) : EvData → EvData :=
  fun ev =>
    let sql := f.1
    let rows := f.2
    let ev1 := (ev.add (LogField.dur c.durKey dur)).add (LogField.str c.sqlKey sql)
    if rows ≠ -1 then ev1.add (LogField.i64 c.rowKey rows) else ev1

/-- Go `Config.logDump`: sql-dump formatter; optionally attaches the duration,
then the SQL text, and the affected-row count unless it is `-1`. -/
def Config.logDump (c : Config) (dur : Int) (f : Supplier) : EvData → EvData :=
  fun ev =>
    let ev0 := if c.DumpWithDuration then ev.add (LogField.dur c.durKey dur) else ev
    let sql := f.1
    let rows := f.2
    let ev1 := ev0.add (LogField.str c.sqlKey sql)
    if rows ≠ -1 then ev1.add (LogField.i64 c.rowKey rows) else ev1

/-- The gorm0log `Logger` adapter.  The Go struct embeds a `zerolog.Logger`
and a `Config` (fields accessed as `l.zl` and `l.cfg` in the source);
here they are named `zl` and `cfg` to avoid shadowing the type names. -/
structure Logger where
  zl : zerolog.Logger
  cfg : Config

/-- Go `Logger.LogMode` (logger.go): rebuilds the adapter around a re-leveled
zerolog handle, carrying the `Config` over unchanged. -/
def Logger.LogMode (l : Logger) (lv : logger.LogLevel) : Logger :=
  { zl := zerolog.Logger.Level l.zl
      (if lv ≤ logger.Silent then zerolog.Disabled
       else if lv = logger.Error then zerolog.ErrorLevel
       else if lv = logger.Warn then zerolog.WarnLevel
       else zerolog.DebugLevel),
    cfg := l.cfg }

/-- Go `Logger.Info`: a plain message at Info level (the format string is taken
already formatted). -/
def Logger.Info (l : Logger) (ctx : Ctx) (m : String) : List Emission :=
  ((UseInfo l.zl).Func (l.cfg.custom ctx)).Msg m

/-- Go `Logger.Warn`: a plain message at Warn level. -/
def Logger.Warn (l : Logger) (ctx : Ctx) (m : String) : List Emission :=
  ((UseWarn l.zl).Func (l.cfg.custom ctx)).Msg m

/-- Go `Logger.Error`: a plain message at Error level. -/
def Logger.Error (l : Logger) (ctx : Ctx) (m : String) : List Emission :=
  ((UseError l.zl).Func (l.cfg.custom ctx)).Msg m

/-- The result of one emission attempt `ev.Func(custom).Func(formatter).Msg(m)`:
the lines written, how many times the formatter (hence the lazy supplier) ran,
and the final `ev.Enabled()` answer. -/
structure EmitOut where
  out : List Emission
  calls : Nat
  enabledAfter : Bool
deriving DecidableEq, Repr

/-- One emission attempt, as every branch of `Trace` performs it.  The
formatter closure runs (invoking the lazy supplier once) exactly when
zerolog's `Func` sees an enabled event. -/
def emitPath (e : Event) (cust fm : EvData → EvData) (m : String) : EmitOut :=
  let e1 := e.Func cust
  let n : Nat := if e1.Enabled then 1 else 0
  let e2 := e1.Func fm
  { out := e2.Msg m, calls := n, enabledAfter := e2.Enabled }

/-- The slow-log / sql-dump tail of `Trace` (logger.go lines 126-138): slow
log when a positive threshold is configured and met, dump otherwise. -/
def Logger.slowOrDump (l : Logger) (ctx : Ctx) (dur : Int) (f : Supplier) : EmitOut :=
  if l.cfg.SlowThreshold > 0 ∧ dur ≥ l.cfg.SlowThreshold then
    emitPath (l.cfg.slowLevel l.zl) (l.cfg.custom ctx) (l.cfg.logSlow dur f)
      "sql query time exceeds threshold"
  else
    emitPath (l.cfg.dumpLevel l.zl) (l.cfg.custom ctx) (l.cfg.logDump dur f)
      "dump sql"

/-- Everything observable about one `Trace` call: the lines written and the
number of lazy-supplier invocations. -/
structure TraceOut where
  emissions : List Emission
  supplierCalls : Nat
deriving DecidableEq, Repr

/-- Go `Logger.Trace` (logger.go): error branch first; if the error event was
enabled, stop; otherwise fall through to the slow-log / dump tail.  `dur` is
the elapsed time `time.Since(begin)`. -/
def Logger.Trace (l : Logger) (ctx : Ctx) (dur : Int) (f : Supplier)
    (err : Option GoError) : TraceOut :=
  match err with
  | some e =>
    let eo := emitPath (l.cfg.errLevel e l.zl) (l.cfg.custom ctx)
      (l.cfg.logErr e f) "a sql error occurred"
    if eo.enabledAfter then
      { emissions := eo.out, supplierCalls := eo.calls }
    else
      let sd := l.slowOrDump ctx dur f
      { emissions := eo.out ++ sd.out, supplierCalls := eo.calls + sd.calls }
  | none =>
    let sd := l.slowOrDump ctx dur f
    { emissions := sd.out, supplierCalls := sd.calls }

/-- Go `Logger.ParamsFilter` (logger.go): drop the parameter list when
`ParameterizedQueries` is set, else pass both through. -/
def Logger.ParamsFilter (l : Logger) (_ctx : Ctx) (sql : String)
    (params : List Param) : String × List Param :=
  if l.cfg.ParameterizedQueries then (sql, [])
  else (sql, params)

/-- Go `LogErrorAt` (helper.go): the given level when the predicate matches, the
Error level otherwise. -/
def LogErrorAt (lvf : LevelSel) (cmpErr : GoError → Bool) :
    GoError → zerolog.Logger → Event :=
  fun err l => if cmpErr err then lvf l else UseError l

/-- Go `CommonError` (helper.go): `errors.Is` against the two gorm sentinels. -/
def CommonError (err : GoError) : Bool :=
  errorsIs err GoError.recordNotFound || errorsIs err GoError.duplicatedKey

/-- Go `IgnoreCommonErr` (helper.go): shortcut of `LogErrorAt UseTrace CommonError`. -/
def IgnoreCommonErr (e : GoError) (l : zerolog.Logger) : Event :=
  LogErrorAt UseTrace CommonError e l

/-- Go `DebugCommonErr` (helper.go): shortcut of `LogErrorAt UseDebug CommonError`. -/
def DebugCommonErr (e : GoError) (l : zerolog.Logger) : Event :=
  LogErrorAt UseDebug CommonError e l

/-- Whether a field list already carries an integer field under the
affected-rows key (a spec-side predicate for stating absence). -/
def hasRowField (c : Config) (fs : List LogField) : Bool :=
  fs.any fun fld =>
    match fld with
    | .i64 k _ => k == c.rowKey
    | _ => false

/-- A fully disabled adapter: zerolog handle at `Disabled`, default config. -/
def silentLogger : Logger :=
  { zl := { lvl := zerolog.Disabled }, cfg := {} }

/-- An adapter at Debug level with the default config. -/
def debugLogger : Logger :=
  { zl := { lvl := zerolog.DebugLevel }, cfg := {} }

/-- A disabled adapter with a slow threshold of 1ns configured. -/
def silentSlowLogger : Logger :=
  { zl := { lvl := zerolog.Disabled }, cfg := { SlowThreshold := 1 } }

/-- A Warn-level adapter with a slow threshold of 3ns configured. -/
def warnSlowLogger : Logger :=
  { zl := { lvl := zerolog.WarnLevel }, cfg := { SlowThreshold := 3 } }

/-! ## Helper lemmas -/

theorem custom_lvl (c : Config) (ctx : Ctx) (d : EvData) :
    ((c.custom ctx) d).lvl = d.lvl := by
  cases hc : c.Customize <;> simp [Config.custom, hc]

theorem logErr_lvl (c : Config) (e : GoError) (f : Supplier) (d : EvData) :
    ((c.logErr e f) d).lvl = d.lvl := by
  unfold Config.logErr
  dsimp only
  split <;> rfl

theorem logSlow_lvl (c : Config) (dur : Int) (f : Supplier) (d : EvData) :
    ((c.logSlow dur f) d).lvl = d.lvl := by
  unfold Config.logSlow
  dsimp only
  split <;> rfl

theorem logDump_lvl (c : Config) (dur : Int) (f : Supplier) (d : EvData) :
    ((c.logDump dur f) d).lvl = d.lvl := by
  unfold Config.logDump
  dsimp only
  split <;> split <;> rfl

theorem enabled_ev (d : EvData) (h : d.lvl ≠ zerolog.Disabled) :
    Event.Enabled (.ev d) = true := by
  simp [Event.Enabled, h]

theorem emitPath_disabled (e : Event) (cust fm : EvData → EvData) (m : String)
    (hd : e.Enabled = false) :
    emitPath e cust fm m = ⟨[], 0, false⟩ := by
  cases e with
  | nil => rfl
  | ev d =>
    have h7 : d.lvl = zerolog.Disabled := by
      by_contra h
      simp [Event.Enabled, h] at hd
    simp [emitPath, Event.Func, Event.Enabled, Event.Msg, h7]

theorem emitPath_enabled (d : EvData) (cust fm : EvData → EvData) (m : String)
    (hc : ∀ x, (cust x).lvl = x.lvl)
    (hf : ∀ x, (fm x).lvl = x.lvl)
    (hd : d.lvl ≠ zerolog.Disabled) :
    emitPath (.ev d) cust fm m = ⟨[⟨m, d.lvl, (fm (cust d)).fields⟩], 1, true⟩ := by
  have h1 : (cust d).lvl = d.lvl := hc d
  have h2 : (fm (cust d)).lvl = d.lvl := by rw [hf (cust d), h1]
  simp [emitPath, Event.Func, Event.Enabled, Event.Msg, hd, h1, h2]

theorem emitPath_enabledAfter (e : Event) (cust fm : EvData → EvData) (m : String)
    (hc : ∀ x, (cust x).lvl = x.lvl)
    (hf : ∀ x, (fm x).lvl = x.lvl) :
    (emitPath e cust fm m).enabledAfter = e.Enabled := by
  cases hE : e.Enabled with
  | false => rw [emitPath_disabled e cust fm m hE]
  | true =>
    cases e with
    | nil => simp [Event.Enabled] at hE
    | ev d =>
      have hd : d.lvl ≠ zerolog.Disabled := by simpa [Event.Enabled] using hE
      rw [emitPath_enabled d cust fm m hc hf hd]

theorem emitPath_calls (e : Event) (cust fm : EvData → EvData) (m : String)
    (hc : ∀ x, (cust x).lvl = x.lvl)
    (hf : ∀ x, (fm x).lvl = x.lvl) :
    (emitPath e cust fm m).calls =
      if (emitPath e cust fm m).out = [] then 0 else 1 := by
  cases hE : e.Enabled with
  | false => rw [emitPath_disabled e cust fm m hE]; simp
  | true =>
    cases e with
    | nil => simp [Event.Enabled] at hE
    | ev d =>
      have hd : d.lvl ≠ zerolog.Disabled := by simpa [Event.Enabled] using hE
      rw [emitPath_enabled d cust fm m hc hf hd]
      simp

theorem Msg_msgs (e : Event) (m : String) : ∀ x ∈ e.Msg m, x.msg = m := by
  intro x hx
  cases e with
  | nil => cases hx
  | ev d =>
    by_cases h : d.lvl = zerolog.Disabled
    · simp [Event.Msg, h] at hx
    · simp [Event.Msg, h] at hx
      simp [hx]

theorem Msg_len (e : Event) (m : String) : (e.Msg m).length ≤ 1 := by
  cases e with
  | nil => simp [Event.Msg]
  | ev d =>
    by_cases h : d.lvl = zerolog.Disabled <;> simp [Event.Msg, h]

theorem emitPath_out_eq_Msg (e : Event) (cust fm : EvData → EvData) (m : String) :
    (emitPath e cust fm m).out = ((e.Func cust).Func fm).Msg m := rfl

theorem emitPath_msgs (e : Event) (cust fm : EvData → EvData) (m : String) :
    ∀ x ∈ (emitPath e cust fm m).out, x.msg = m := by
  intro x hx
  rw [emitPath_out_eq_Msg] at hx
  exact Msg_msgs _ m x hx

theorem emitPath_len (e : Event) (cust fm : EvData → EvData) (m : String) :
    (emitPath e cust fm m).out.length ≤ 1 := by
  rw [emitPath_out_eq_Msg]
  exact Msg_len _ m

theorem emitPath_not_enabled_out (e : Event) (cust fm : EvData → EvData) (m : String)
    (hc : ∀ x, (cust x).lvl = x.lvl)
    (hf : ∀ x, (fm x).lvl = x.lvl)
    (h : (emitPath e cust fm m).enabledAfter = false) :
    (emitPath e cust fm m).out = [] ∧ (emitPath e cust fm m).calls = 0 := by
  have hE : e.Enabled = false := by
    rw [← emitPath_enabledAfter e cust fm m hc hf]; exact h
  rw [emitPath_disabled e cust fm m hE]
  exact ⟨rfl, rfl⟩

theorem emitPath_enabled_out_ne (e : Event) (cust fm : EvData → EvData) (m : String)
    (hc : ∀ x, (cust x).lvl = x.lvl)
    (hf : ∀ x, (fm x).lvl = x.lvl)
    (h : (emitPath e cust fm m).enabledAfter = true) :
    (emitPath e cust fm m).out ≠ [] ∧ (emitPath e cust fm m).calls = 1 := by
  have hE : e.Enabled = true := by
    rw [← emitPath_enabledAfter e cust fm m hc hf]; exact h
  cases e with
  | nil => simp [Event.Enabled] at hE
  | ev d =>
    have hd : d.lvl ≠ zerolog.Disabled := by simpa [Event.Enabled] using hE
    rw [emitPath_enabled d cust fm m hc hf hd]
    exact ⟨by simp, rfl⟩

theorem slowOrDump_len (l : Logger) (ctx : Ctx) (dur : Int) (f : Supplier) :
    (l.slowOrDump ctx dur f).out.length ≤ 1 := by
  unfold Logger.slowOrDump
  split <;> exact emitPath_len _ _ _ _

theorem slowOrDump_msgs (l : Logger) (ctx : Ctx) (dur : Int) (f : Supplier) :
    ∀ x ∈ (l.slowOrDump ctx dur f).out,
      x.msg = "sql query time exceeds threshold" ∨ x.msg = "dump sql" := by
  intro x hx
  unfold Logger.slowOrDump at hx
  split at hx
  · exact Or.inl (emitPath_msgs _ _ _ _ x hx)
  · exact Or.inr (emitPath_msgs _ _ _ _ x hx)

theorem slowOrDump_calls (l : Logger) (ctx : Ctx) (dur : Int) (f : Supplier) :
    (l.slowOrDump ctx dur f).calls =
      if (l.slowOrDump ctx dur f).out = [] then 0 else 1 := by
  unfold Logger.slowOrDump
  split
  · exact emitPath_calls _ _ _ _ (custom_lvl l.cfg ctx) (logSlow_lvl l.cfg dur f)
  · exact emitPath_calls _ _ _ _ (custom_lvl l.cfg ctx) (logDump_lvl l.cfg dur f)

theorem logErr_mem_err (c : Config) (e : GoError) (f : Supplier) (d : EvData) :
    LogField.err e ∈ ((c.logErr e f) d).fields := by
  unfold Config.logErr
  dsimp only
  split <;> simp [EvData.add]

theorem logSlow_mem_dur (c : Config) (dur : Int) (f : Supplier) (d : EvData) :
    LogField.dur c.durKey dur ∈ ((c.logSlow dur f) d).fields := by
  unfold Config.logSlow
  dsimp only
  split <;> simp [EvData.add]

theorem slowOrDump_slow (l : Logger) (ctx : Ctx) (dur : Int) (f : Supplier)
    (hthr : 0 < l.cfg.SlowThreshold)
    (hdur : l.cfg.SlowThreshold ≤ dur)
    (hslow : (l.cfg.slowLevel l.zl).Enabled = true) :
    (l.slowOrDump ctx dur f).out.map Emission.msg = ["sql query time exceeds threshold"] ∧
    (∀ x ∈ (l.slowOrDump ctx dur f).out, LogField.dur l.cfg.durKey dur ∈ x.fields) ∧
    (l.slowOrDump ctx dur f).calls = 1 := by
  unfold Logger.slowOrDump
  rw [if_pos ⟨hthr, hdur⟩]
  cases hEv : l.cfg.slowLevel l.zl with
  | nil => rw [hEv] at hslow; simp [Event.Enabled] at hslow
  | ev d =>
    have hd : d.lvl ≠ zerolog.Disabled := by
      rw [hEv] at hslow; simpa [Event.Enabled] using hslow
    rw [emitPath_enabled d _ _ _ (custom_lvl l.cfg ctx) (logSlow_lvl l.cfg dur f) hd]
    refine ⟨rfl, ?_, rfl⟩
    intro x hx
    rcases List.mem_singleton.mp hx with rfl
    exact logSlow_mem_dur l.cfg dur f _

theorem not_mem_of_no_rowField (c : Config) {fs : List LogField}
    (h : hasRowField c fs = false) (v : Int) : LogField.i64 c.rowKey v ∉ fs := by
  intro hmem
  have htrue : hasRowField c fs = true := by
    unfold hasRowField
    rw [List.any_eq_true]
    exact ⟨_, hmem, by simp⟩
  rw [h] at htrue
  cases htrue

theorem commonError_iff_leaf (e : GoError) :
    CommonError e = true ↔
      (e.leaf = GoError.recordNotFound ∨ e.leaf = GoError.duplicatedKey) := by
  induction e with
  | recordNotFound => decide
  | duplicatedKey => decide
  | other t => simp [CommonError, errorsIs, GoError.leaf]
  | wrap i ih =>
    have h1 : CommonError (GoError.wrap i) = CommonError i := by
      simp [CommonError, errorsIs]
    rw [h1]
    simpa [GoError.leaf] using ih

/-! ## Claim theorems -/

/-- Claim C1 counterexample: a `Trace` call for which none of the three path
messages is actually emitted.  With a disabled zerolog handle and the default
config, the dump path is taken but its event is filtered out, so zero
messages are written — refuting "never zero of them". -/
theorem trace_zero_messages_counterexample :
    (silentLogger.Trace 0 0 ("select 1", 1) none).emissions = [] ∧
    (silentLogger.Trace 0 0 ("select 1", 1) none).emissions.length ≠ 1 := by
  constructor
  · rfl
  · decide

/-- Claim C1 (amended): per `Trace` call, at most one of the three path
messages is emitted — never two — and every emitted message is one of the
three. -/
theorem trace_at_most_one_message (l : Logger) (ctx : Ctx) (dur : Int)
    (f : Supplier) (err : Option GoError) :
    (l.Trace ctx dur f err).emissions.length ≤ 1 ∧
    ∀ x ∈ (l.Trace ctx dur f err).emissions,
      x.msg = "a sql error occurred" ∨ x.msg = "sql query time exceeds threshold" ∨
        x.msg = "dump sql" := by
  cases err with
  | none =>
    refine ⟨slowOrDump_len l ctx dur f, ?_⟩
    intro x hx
    rcases slowOrDump_msgs l ctx dur f x hx with h | h
    · exact Or.inr (Or.inl h)
    · exact Or.inr (Or.inr h)
  | some e =>
    unfold Logger.Trace
    dsimp only
    split
    · refine ⟨emitPath_len _ _ _ _, ?_⟩
      intro x hx
      exact Or.inl (emitPath_msgs _ _ _ _ x hx)
    · rename_i h
      have hfalse : (emitPath (l.cfg.errLevel e l.zl) (l.cfg.custom ctx)
          (l.cfg.logErr e f) "a sql error occurred").enabledAfter = false := by
        revert h
        cases (emitPath (l.cfg.errLevel e l.zl) (l.cfg.custom ctx)
          (l.cfg.logErr e f) "a sql error occurred").enabledAfter <;> simp
      have h0 := emitPath_not_enabled_out (l.cfg.errLevel e l.zl) (l.cfg.custom ctx)
        (l.cfg.logErr e f) "a sql error occurred" (custom_lvl l.cfg ctx)
        (logErr_lvl l.cfg e f) hfalse
      rw [h0.1]
      simp only [List.nil_append]
      refine ⟨slowOrDump_len l ctx dur f, ?_⟩
      intro x hx
      rcases slowOrDump_msgs l ctx dur f x hx with h | h
      · exact Or.inr (Or.inl h)
      · exact Or.inr (Or.inr h)

/-- Claim C1 witness: the amended theorem evaluated at a concrete call. -/
theorem trace_at_most_one_message_witness :
    (debugLogger.Trace 0 0 ("select 1", -1) none).emissions.length ≤ 1 :=
  (trace_at_most_one_message debugLogger 0 0 ("select 1", -1) none).1

/-- Claim C2: with a non-nil error, if the selector's event is enabled the
error message is the only emission (and it carries the error field placed by
the error formatter); if it is disabled, the call is indistinguishable —
emissions and supplier invocations — from the same call with a nil error. -/
theorem trace_error_branch (l : Logger) (ctx : Ctx) (dur : Int) (f : Supplier)
    (e : GoError) :
    ((l.cfg.errLevel e l.zl).Enabled = true →
      (l.Trace ctx dur f (some e)).emissions.map Emission.msg = ["a sql error occurred"] ∧
      ∀ x ∈ (l.Trace ctx dur f (some e)).emissions, LogField.err e ∈ x.fields) ∧
    ((l.cfg.errLevel e l.zl).Enabled = false →
      l.Trace ctx dur f (some e) = l.Trace ctx dur f none) := by
  constructor
  · intro hE
    cases hEv : l.cfg.errLevel e l.zl with
    | nil => rw [hEv] at hE; simp [Event.Enabled] at hE
    | ev d =>
      have hd : d.lvl ≠ zerolog.Disabled := by
        rw [hEv] at hE; simpa [Event.Enabled] using hE
      unfold Logger.Trace
      dsimp only
      rw [hEv, emitPath_enabled d _ _ _ (custom_lvl l.cfg ctx) (logErr_lvl l.cfg e f) hd]
      refine ⟨rfl, ?_⟩
      intro x hx
      rcases List.mem_singleton.mp hx with rfl
      exact logErr_mem_err l.cfg e f _
  · intro hE
    have hfalse : (emitPath (l.cfg.errLevel e l.zl) (l.cfg.custom ctx)
        (l.cfg.logErr e f) "a sql error occurred").enabledAfter = false := by
      rw [emitPath_enabledAfter _ _ _ _ (custom_lvl l.cfg ctx) (logErr_lvl l.cfg e f)]
      exact hE
    have h0 := emitPath_not_enabled_out (l.cfg.errLevel e l.zl) (l.cfg.custom ctx)
      (l.cfg.logErr e f) "a sql error occurred" (custom_lvl l.cfg ctx)
      (logErr_lvl l.cfg e f) hfalse
    unfold Logger.Trace
    dsimp only
    rw [hfalse]
    simp only [Bool.false_eq_true, if_false, h0.1, h0.2, List.nil_append, Nat.zero_add]

/-- Claim C2 witness: both branches evaluated at concrete calls (an enabled
default error event at Debug level; a filtered-out one on a disabled handle). -/
theorem trace_error_branch_witness :
    (debugLogger.Trace 0 0 ("q", -1) (some GoError.recordNotFound)).emissions.map
        Emission.msg = ["a sql error occurred"] ∧
    silentLogger.Trace 0 0 ("q", -1) (some GoError.recordNotFound) =
      silentLogger.Trace 0 0 ("q", -1) none :=
  ⟨((trace_error_branch debugLogger 0 0 ("q", -1) GoError.recordNotFound).1 (by decide)).1,
   (trace_error_branch silentLogger 0 0 ("q", -1) GoError.recordNotFound).2 (by decide)⟩

/-- Claim C3 counterexample: the out-of-range verbosity `0` (below `Silent`)
does not map to the same branch as `Info` — the first switch case
`i <= logger.Silent` catches every value at or below `Silent`, mapping it to
`Disabled`, while `Info` maps to Debug / Trace. -/
theorem levelmap_counterexample :
    DefaultLogLevelMap 0 = zerolog.Disabled ∧
    DefaultLogLevelMap logger.Info = zerolog.DebugLevel ∧
    DefaultLogLevelMap 0 ≠ DefaultLogLevelMap logger.Info ∧
    WithTimeTracking 0 ≠ WithTimeTracking logger.Info := by
  refine ⟨by decide, by decide, by decide, by decide⟩

/-- Claim C3 (amended): both maps are total and deterministic (they are
functions on all of `Int`); every verbosity at or below `Silent` — including
all out-of-range values below the enumeration — maps to `Disabled`; `Error`
and `Warn` map to their levels; and every verbosity strictly above `Warn`
(so `Info` and every unrecognized value above the range) maps to `Info`'s
branch: Debug for `DefaultLogLevelMap`, Trace for `WithTimeTracking`. -/
theorem levelmap_spec (i : Int) :
    (i ≤ logger.Silent →
      DefaultLogLevelMap i = zerolog.Disabled ∧ WithTimeTracking i = zerolog.Disabled) ∧
    (i = logger.Error →
      DefaultLogLevelMap i = zerolog.ErrorLevel ∧ WithTimeTracking i = zerolog.ErrorLevel) ∧
    (i = logger.Warn →
      DefaultLogLevelMap i = zerolog.WarnLevel ∧ WithTimeTracking i = zerolog.WarnLevel) ∧
    (logger.Warn < i →
      DefaultLogLevelMap i = zerolog.DebugLevel ∧ WithTimeTracking i = zerolog.TraceLevel) := by
  refine ⟨?_, ?_, ?_, ?_⟩ <;> intro h
  · constructor <;> simp [DefaultLogLevelMap, WithTimeTracking, h]
  · subst h; constructor <;> decide
  · subst h; constructor <;> decide
  · have h' : (3 : Int) < i := by simpa only [logger.Warn] using h
    have h1 : ¬ i ≤ logger.Silent := by simp only [logger.Silent]; omega
    have h2 : ¬ i = logger.Error := by simp only [logger.Error]; omega
    have h3 : ¬ i = logger.Warn := by simp only [logger.Warn]; omega
    constructor <;> simp [DefaultLogLevelMap, WithTimeTracking, h1, h2, h3]

/-- Claim C3 witness: the amended theorem evaluated at concrete verbosities. -/
theorem levelmap_spec_witness :
    DefaultLogLevelMap 1 = zerolog.Disabled ∧ WithTimeTracking 9 = zerolog.TraceLevel :=
  ⟨((levelmap_spec 1).1 (by decide)).1, ((levelmap_spec 9).2.2.2 (by decide)).2⟩

/-- Claim C4 counterexample: with a positive threshold met and no error, but
a disabled zerolog handle, no slow-path message is emitted — refuting the
claim as stated (it omits the requirement that the slow event be enabled). -/
theorem trace_slow_counterexample :
    0 < silentSlowLogger.cfg.SlowThreshold ∧
    silentSlowLogger.cfg.SlowThreshold ≤ 2 ∧
    (silentSlowLogger.Trace 0 2 ("select 1", 1) none).emissions = [] ∧
    (silentSlowLogger.Trace 0 2 ("select 1", 1) none).emissions.map Emission.msg ≠
      ["sql query time exceeds threshold"] := by
  refine ⟨by decide, by decide, by rfl, by decide⟩

/-- Claim C4 (amended): with no enabled error event, a positive threshold met
by the elapsed time, and the slow selector's event enabled at the logger's
threshold, the slow message is the only emission and carries the duration
field under the duration key; the dump message is never also emitted. -/
theorem trace_slow_path (l : Logger) (ctx : Ctx) (dur : Int) (f : Supplier)
    (err : Option GoError)
    (herr : ∀ e, err = some e → (l.cfg.errLevel e l.zl).Enabled = false)
    (hthr : 0 < l.cfg.SlowThreshold)
    (hdur : l.cfg.SlowThreshold ≤ dur)
    (hslow : (l.cfg.slowLevel l.zl).Enabled = true) :
    (l.Trace ctx dur f err).emissions.map Emission.msg = ["sql query time exceeds threshold"] ∧
    ∀ x ∈ (l.Trace ctx dur f err).emissions, LogField.dur l.cfg.durKey dur ∈ x.fields := by
  have hsd := slowOrDump_slow l ctx dur f hthr hdur hslow
  cases err with
  | none => exact ⟨hsd.1, hsd.2.1⟩
  | some e =>
    have hfalse : (emitPath (l.cfg.errLevel e l.zl) (l.cfg.custom ctx)
        (l.cfg.logErr e f) "a sql error occurred").enabledAfter = false := by
      rw [emitPath_enabledAfter _ _ _ _ (custom_lvl l.cfg ctx) (logErr_lvl l.cfg e f)]
      exact herr e rfl
    have h0 := emitPath_not_enabled_out (l.cfg.errLevel e l.zl) (l.cfg.custom ctx)
      (l.cfg.logErr e f) "a sql error occurred" (custom_lvl l.cfg ctx)
      (logErr_lvl l.cfg e f) hfalse
    unfold Logger.Trace
    dsimp only
    rw [hfalse]
    simp only [Bool.false_eq_true, if_false, h0.1, List.nil_append]
    exact ⟨hsd.1, hsd.2.1⟩

/-- Claim C4 witness: the amended theorem at a Warn-level adapter with a 3ns
threshold and a 4ns query. -/
theorem trace_slow_path_witness :
    (warnSlowLogger.Trace 0 4 ("select sleep", 2) none).emissions.map Emission.msg =
      ["sql query time exceeds threshold"] :=
  (trace_slow_path warnSlowLogger 0 4 ("select sleep", 2) none
    (fun _ h => Option.noConfusion h) (by decide) (by decide) (by decide)).1

/-- Claim C5: the lazy supplier is invoked at most once per `Trace` call, and
it is invoked exactly when a message is actually emitted — that is, exactly
when the event chosen for the emitted message was enabled; when every
candidate event is disabled, it is never invoked. -/
theorem trace_supplier_at_most_once (l : Logger) (ctx : Ctx) (dur : Int)
    (f : Supplier) (err : Option GoError) :
    (l.Trace ctx dur f err).supplierCalls ≤ 1 ∧
    (l.Trace ctx dur f err).supplierCalls =
      (if (l.Trace ctx dur f err).emissions = [] then 0 else 1) := by
  have hmain : (l.Trace ctx dur f err).supplierCalls =
      (if (l.Trace ctx dur f err).emissions = [] then 0 else 1) := by
    cases err with
    | none => exact slowOrDump_calls l ctx dur f
    | some e =>
      unfold Logger.Trace
      dsimp only
      split
      · rename_i h
        have hne := emitPath_enabled_out_ne (l.cfg.errLevel e l.zl) (l.cfg.custom ctx)
          (l.cfg.logErr e f) "a sql error occurred" (custom_lvl l.cfg ctx)
          (logErr_lvl l.cfg e f) h
        rw [hne.2, if_neg hne.1]
      · rename_i h
        have hfalse : (emitPath (l.cfg.errLevel e l.zl) (l.cfg.custom ctx)
            (l.cfg.logErr e f) "a sql error occurred").enabledAfter = false := by
          revert h
          cases (emitPath (l.cfg.errLevel e l.zl) (l.cfg.custom ctx)
            (l.cfg.logErr e f) "a sql error occurred").enabledAfter <;> simp
        have h0 := emitPath_not_enabled_out (l.cfg.errLevel e l.zl) (l.cfg.custom ctx)
          (l.cfg.logErr e f) "a sql error occurred" (custom_lvl l.cfg ctx)
          (logErr_lvl l.cfg e f) hfalse
        rw [h0.1, h0.2]
        simp only [List.nil_append, Nat.zero_add]
        exact slowOrDump_calls l ctx dur f
  refine ⟨?_, hmain⟩
  rw [hmain]
  split <;> decide

/-- Claim C6: for each of the three formatters, when the starting event does
not already carry an affected-rows field, the emitted event carries an
integer field under the affected-rows key exactly when the supplier's row
count is not the `-1` sentinel, and then its value is that row count. -/
theorem formatters_affected_rows (c : Config) (e : GoError) (sql : String)
    (rows dur v : Int) (d : EvData)
    (h : hasRowField c d.fields = false) :
    (LogField.i64 c.rowKey v ∈ ((c.logErr e (sql, rows)) d).fields ↔
      rows ≠ -1 ∧ v = rows) ∧
    (LogField.i64 c.rowKey v ∈ ((c.logSlow dur (sql, rows)) d).fields ↔
      rows ≠ -1 ∧ v = rows) ∧
    (LogField.i64 c.rowKey v ∈ ((c.logDump dur (sql, rows)) d).fields ↔
      rows ≠ -1 ∧ v = rows) := by
  have hnm := not_mem_of_no_rowField c h v
  refine ⟨?_, ?_, ?_⟩
  · unfold Config.logErr
    dsimp only
    by_cases hr : rows = -1
    · subst hr
      simp [EvData.add, hnm]
    · rw [if_pos hr]
      simp [EvData.add, hnm, hr]
  · unfold Config.logSlow
    dsimp only
    by_cases hr : rows = -1
    · subst hr
      simp [EvData.add, hnm]
    · rw [if_pos hr]
      simp [EvData.add, hnm, hr]
  · unfold Config.logDump
    dsimp only
    by_cases hD : c.DumpWithDuration <;> by_cases hr : rows = -1
    · subst hr
      simp [EvData.add, hnm, hD]
    · rw [if_pos hr]
      simp [EvData.add, hnm, hr, hD]
    · subst hr
      simp [EvData.add, hnm, hD]
    · rw [if_pos hr]
      simp [EvData.add, hnm, hr, hD]

/-- Claim C6 witness: the theorem evaluated on a fresh event with the default
config, row count 3. -/
theorem formatters_affected_rows_witness :
    hasRowField {} (⟨0, []⟩ : EvData).fields = false ∧
    (LogField.i64 (Config.rowKey {}) 3 ∈
        ((Config.logErr {} GoError.recordNotFound ("q", 3)) ⟨0, []⟩).fields ↔
      (3 : Int) ≠ -1 ∧ (3 : Int) = 3) :=
  ⟨rfl, (formatters_affected_rows {} GoError.recordNotFound "q" 3 7 3 ⟨0, []⟩ rfl).1⟩

/-- Claim C7: `LogMode` carries the `Config` over unchanged and installs on
the new adapter's zerolog handle exactly the level given by the mode switch.
The Go method builds and returns a fresh `&Logger{...}` and never writes
through the receiver, which the embedding reflects by being a pure function
of the original value: the original adapter value (and hence the behavior of
all five contract methods on it) is unchanged by construction.  Pointer
identity of the fresh instance is not observable in a value-semantics
embedding. -/
theorem logmode_frame (l : Logger) (lv : logger.LogLevel) :
    (l.LogMode lv).cfg = l.cfg ∧
    (l.LogMode lv).zl.lvl =
      (if lv ≤ logger.Silent then zerolog.Disabled
       else if lv = logger.Error then zerolog.ErrorLevel
       else if lv = logger.Warn then zerolog.WarnLevel
       else zerolog.DebugLevel) :=
  ⟨rfl, rfl⟩

/-- Claim C8: `CommonError` matches exactly the errors whose unwrap chain
reaches one of the two gorm sentinels (`errors.Is` matching); `LogErrorAt`
yields the given level when the predicate accepts and the Error level
otherwise; `IgnoreCommonErr` and `DebugCommonErr` are the stated shortcuts. -/
theorem common_error_spec (e : GoError) (l : zerolog.Logger) (lvf : LevelSel)
    (cmp : GoError → Bool) :
    (CommonError e = true ↔
      (errorsIs e GoError.recordNotFound = true ∨
        errorsIs e GoError.duplicatedKey = true)) ∧
    (CommonError e = true ↔
      (e.leaf = GoError.recordNotFound ∨ e.leaf = GoError.duplicatedKey)) ∧
    (LogErrorAt lvf cmp e l = if cmp e then lvf l else UseError l) ∧
    (IgnoreCommonErr e l = LogErrorAt UseTrace CommonError e l) ∧
    (DebugCommonErr e l = LogErrorAt UseDebug CommonError e l) :=
  ⟨by simp [CommonError], commonError_iff_leaf e, rfl, rfl, rfl⟩

/-- Claim C9: `ParamsFilter` always returns the SQL text unchanged, and the
parameter list is dropped exactly when `ParameterizedQueries` is set. -/
theorem params_filter_spec (l : Logger) (ctx : Ctx) (sql : String)
    (ps : List Param) :
    (l.ParamsFilter ctx sql ps).1 = sql ∧
    (l.ParamsFilter ctx sql ps).2 =
      (if l.cfg.ParameterizedQueries then [] else ps) := by
  unfold Logger.ParamsFilter
  split <;> exact ⟨rfl, rfl⟩

/-- Claim C10: the level `LogMode` installs is exactly `DefaultLogLevelMap`
of the requested verbosity; that level is never `TraceLevel`, while the
`WithTimeTracking` mapping sends `Info` to `TraceLevel` — so an adapter
built with `WithTimeTracking` loses trace-level behavior after any mode
switch. -/
theorem logmode_level_eq_default (l : Logger) (lv : logger.LogLevel) :
    (l.LogMode lv).zl.lvl = DefaultLogLevelMap lv ∧
    (l.LogMode lv).zl.lvl ≠ zerolog.TraceLevel ∧
    WithTimeTracking logger.Info = zerolog.TraceLevel ∧
    DefaultLogLevelMap logger.Info ≠ zerolog.TraceLevel := by
  have h1 : (l.LogMode lv).zl.lvl = DefaultLogLevelMap lv := rfl
  refine ⟨h1, ?_, by decide, by decide⟩
  rw [h1]
  unfold DefaultLogLevelMap
  split
  · decide
  split
  · decide
  split
  · decide
  · decide
